import Mathlib

set_option maxHeartbeats 1000000
set_option maxRecDepth 100000

/-!
Verification development for the Telegram auto-insurance intake bot
(source: src/main.py).

The conversation state machine, the per-user session store and every
message handler of the source are embedded as executable Lean functions.
External collaborators (the Mindee document-extraction service and the
language-model completion service) are modelled as oracle inputs carried
by each event: a photo event carries the raw field mapping the extraction
call would return (`none` standing for a raised exception), and a text
event carries the completion the language-model call would return
(`none` standing for a raised exception).  Everything downstream of those
oracle results is translated directly from the handler code.
-/

namespace TgBot

/-- Python `str.lower` on one character, modelled for the alphabets the
bot actually compares: ASCII letters and the Cyrillic block used by the
Ukrainian keywords (U+0400–U+042F, plus Ґ U+0490). -/
def pyLowerChar (c : Char) : Char :=
  if 'A' ≤ c ∧ c ≤ 'Z' then Char.ofNat (c.toNat + 32)
  else if 0x410 ≤ c.toNat ∧ c.toNat ≤ 0x42F then Char.ofNat (c.toNat + 0x20)
  else if 0x400 ≤ c.toNat ∧ c.toNat ≤ 0x40F then Char.ofNat (c.toNat + 0x50)
  else if c.toNat = 0x490 then Char.ofNat 0x491
  else c

/-- Python `str.lower`, characterwise. -/
def pyLower (s : String) : String :=
  String.mk (s.data.map pyLowerChar)

/-- The whitespace set of Python `str.strip()` (ASCII part). -/
def isPySpace (c : Char) : Bool :=
  c = ' ' || c = '\t' || c = '\n' || c = '\r' || c = '\x0b' || c = '\x0c'

/-- Strip characters satisfying `isPySpace` from both ends of a list. -/
def stripChars (l : List Char) : List Char :=
  ((l.dropWhile isPySpace).reverse.dropWhile isPySpace).reverse

/-- Python `str.strip()`. -/
def pyStrip (s : String) : String :=
  String.mk (stripChars s.data)

/-- `needle` occurs as a contiguous run inside `hay` (list form). -/
def subOf (needle : List Char) : List Char → Bool
  | [] => needle.isEmpty
  | c :: t => needle.isPrefixOf (c :: t) || subOf needle t

/-- Python `needle in hay` substring containment. -/
def strContains (hay needle : String) : Bool :=
  subOf needle.data hay.data

/-- Python `dict.get(k, default)` over an association list whose first
binding of a key is the authoritative one. -/
def dget (d : List (String × String)) (k default : String) : String :=
  match d.find? (fun p => p.1 == k) with
  | some p => p.2
  | none => default

/-- Key membership of the association-list dictionary. -/
def hasKeyB (d : List (String × String)) (k : String) : Bool :=
  (d.find? (fun p => p.1 == k)).isSome

/-- Rebinding of one existing entry of `d` during `d.update(u)`: the
entry takes the value `u` gives its key, when `u` binds it. -/
def updFn (u : List (String × String)) (p : String × String) : String × String :=
  match u.find? (fun q => q.1 == p.1) with
  | some q => q
  | none => p

/-- Python `d.update(u)`: existing keys of `d` take the value from `u`
when `u` binds them, and the keys of `u` that are new to `d` are appended
in order. -/
def pyUpdate (d u : List (String × String)) : List (String × String) :=
  d.map (updFn u) ++ u.filter (fun q => !(hasKeyB d q.1))

/-- Raw field objects the passport extraction call may return
(`fields.get` results; `none` = field absent). -/
structure PassportRaw where
  surnames : Option String
  given_names : Option String
  passport_number : Option String
deriving DecidableEq, Repr

/-- Raw field objects the vehicle extraction call may return. -/
structure VehicleRaw where
  car_model : Option String
  car_brand : Option String
  vin_number : Option String
deriving DecidableEq, Repr

/-- `extract_passport_data` of src/main.py: the oracle argument is `none`
when the Mindee call raises (the `except` branch). -/
def extract_passport_data (res : Option PassportRaw) : List (String × String) :=
  match res with
  | none =>
    [("full_name", "Unknown"), ("passport_number", "Unknown")]
  | some r =>
    let surnames := r.surnames.getD ""
    let given_names := r.given_names.getD ""
    let joined := pyStrip (given_names ++ " " ++ surnames)
    let full_name := if joined = "" then "Unknown" else joined
    let passport_number := r.passport_number.getD "Unknown"
    [("full_name", full_name), ("passport_number", passport_number)]

/-- `extract_vehicle_data` of src/main.py. -/
def extract_vehicle_data (res : Option VehicleRaw) : List (String × String) :=
  match res with
  | none =>
    [("car_brand", "Unknown"), ("car_model", "Unknown"), ("vin_number", "Unknown")]
  | some r =>
    let car_model := r.car_model.getD "Unknown"
    let car_brand := r.car_brand.getD "Unknown"
    let vin_number := r.vin_number.getD "Unknown"
    [("car_brand", car_brand), ("car_model", car_model), ("vin_number", vin_number)]

/-- `ask_ai_about_price`: the completion stripped on success, the canned
fallback string on an exception. -/
def ask_ai_about_price (ai : Option String) : String :=
  match ai with
  | some r => pyStrip r
  | none => "Ціна, на жаль, фіксована через стандартизований тариф для всіх клієнтів."

/-- `answer_user_question_with_ai`: completion stripped on success, the
canned apology on an exception. -/
def answer_user_question_with_ai (ai : Option String) : String :=
  match ai with
  | some r => pyStrip r
  | none => "Вибачте, щось пішло не так з відповіддю. Спробуйте ще раз."

/-- One user's session entry in `user_data_storage`. -/
structure Session where
  passport_photo : String
  extracted : List (String × String)
  car_doc : Option String
deriving DecidableEq, Repr

/-- The conversation states of the handler table (`range(6)` plus the
implicit terminal `ConversationHandler.END`). -/
inductive State where
  | askPassport
  | askCarDoc
  | confirmData
  | priceConfirm
  | priceReconfirm
  | afterPolicy
  | ended
deriving DecidableEq, Repr

/-- Every outbound message of the bot, tagged by the `reply_text` call
that produces it; payload-carrying constructors hold the dynamic part. -/
inductive Msg where
  | startGreeting
  | aiFallbackReply (s : String)
  | expectingPhoto
  | thanksAskCarDoc
  | foundSummary (full_name passport_number car_brand car_model vin_number : String)
  | priceOffer
  | askPassportAgain
  | priceExplanation (s : String)
  | priceAgreeAgain
  | priceFixedReconfirm
  | policyCreatedNotice
  | policyDoc (s : String)
  | offerAnotherPolicy
  | reconfirmFarewell
  | reconfirmAiReply (s : String)
  | reconfirmReAsk
  | reconfirmAiError
  | afterPolicyFarewell
  | cancelNotice
deriving DecidableEq, Repr

/-- The literal text each message renders to, copied from src/main.py. -/
def Msg.text : Msg → String
  | .startGreeting =>
      "Привіт! Я — бот для покупки автострахування.\nНадішліть, будь ласка, *фото вашого паспорта*.\n\nЯкщо помилилися — введіть /cancel."
  | .aiFallbackReply s => s
  | .expectingPhoto => "Я очікую фото. Будь ласка, надішліть фото, як було запрошено."
  | .thanksAskCarDoc => "Дякую! Тепер, будь ласка, надішліть фото документа на авто."
  | .foundSummary fn pn cb cm vin =>
      "Ось що я знайшов:\n👤 Ім\x27я: " ++ fn ++ "\n📄 Паспорт: " ++ pn ++
      "\n🚗 Авто: " ++ cb ++ " " ++ cm ++ "\n🔧 VIN: " ++ vin ++ "\n\nВсе правильно?"
  | .priceOffer => "Ціна страховки становить 100 USD. Приймаєте?"
  | .askPassportAgain => "Окей, надішліть, будь ласка, фото паспорта ще раз."
  | .priceExplanation s => s
  | .priceAgreeAgain => "Тепер ви згодні на оформлення страхування за 100 USD?"
  | .priceFixedReconfirm => "Вибачте, але на жаль, ціна фіксована (100 USD). Згодні?"
  | .policyCreatedNotice => "✅ Страховий поліс створено. Ось ваш документ:"
  | .policyDoc s => s
  | .offerAnotherPolicy => "Бажаєте створити ще один страховий поліс?"
  | .reconfirmFarewell => "Добре. Сподіваюся побачити вас наступного разу!"
  | .reconfirmAiReply s => s
  | .reconfirmReAsk => "Після пояснення, ви погоджуєтесь на поліс за 100 USD?"
  | .reconfirmAiError => "На жаль, зараз не можу відповісти. Спробуйте трохи пізніше."
  | .afterPolicyFarewell => "Дякую за використання бота! До зустрічі."
  | .cancelNotice => "Скасовано. Для початку введіть /start"

/-- The inbound events the dispatcher routes, each carrying the oracle
result of the collaborator call its handler would make. -/
inductive Event where
  | photo (path : String) (passport : Option PassportRaw) (vehicle : Option VehicleRaw)
  | text (body : String) (ai : Option String)
  | cancelCmd
  | startCmd
deriving DecidableEq, Repr

/-- A configuration: conversation state, the user's session entry of
`user_data_storage` (none while no entry exists), and the transcript of
outbound messages. -/
structure Conf where
  state : State
  sess : Option Session
  log : List Msg
deriving DecidableEq, Repr

/-- The policy template of `issue_policy` after substitution
(`string.Template.substitute` on the fixed template text). -/
def policy_text (d : List (String × String)) : String :=
  "\nСтраховий Поліс\n\nІм\x27я застрахованого: " ++ dget d "full_name" "Unknown" ++
  "\nНомер паспорта: " ++ dget d "passport_number" "Unknown" ++
  "\nАвтомобіль: " ++ dget d "car_brand" "Unknown" ++ " " ++ dget d "car_model" "Unknown" ++
  "\nVIN: " ++ dget d "vin_number" "Unknown" ++
  "\n\nСума до сплати: 100 USD\n\nЦей документ є підтвердженням оформлення автострахування.\n    "

/-- The document text actually sent: `policy_text.strip()`. -/
def renderPolicy (d : List (String × String)) : String :=
  pyStrip (policy_text d)

/-- `issue_policy`: reads the session entry without a guard (a missing
entry raises `KeyError`, modelled as `none`), renders and sends the
document, offers another policy. -/
def issue_policy (sess : Option Session) (log : List Msg) : Option Conf :=
  match sess with
  | none => none
  | some s =>
    some ⟨.afterPolicy, some s,
      log ++ [.policyCreatedNotice, .policyDoc (renderPolicy s.extracted), .offerAnotherPolicy]⟩

/-- `handle_unexpected_input`: question-cue texts go to the language
model, everything else gets the fixed photo re-prompt; the state is left
unchanged (the handler returns `None`). -/
def unexpectedReply (t : String) (ai : Option String) : Msg :=
  let um := pyLower t
  if strContains um "навіщо" || strContains um "чому" || strContains um "для чого" ||
      strContains um "а якщо" || strContains um "чи потрібно" then
    .aiFallbackReply (answer_user_question_with_ai ai)
  else
    .expectingPhoto

/-- One dispatcher turn: route the event by the current conversation
state exactly as the `ConversationHandler` table of src/main.py does.
`none` models an unhandled `KeyError` escaping from a handler. -/
def step (c : Conf) (ev : Event) : Option Conf :=
  match ev with
  | .cancelCmd =>
    if c.state = .ended then some c
    else some ⟨.ended, c.sess, c.log ++ [.cancelNotice]⟩
  | .startCmd =>
    if c.state = .ended then some ⟨.askPassport, c.sess, c.log ++ [.startGreeting]⟩
    else some c
  | .photo path pres vres =>
    match c.state with
    | .askPassport =>
      some ⟨.askCarDoc,
        some { passport_photo := path, extracted := extract_passport_data pres, car_doc := none },
        c.log ++ [.thanksAskCarDoc]⟩
    | .askCarDoc =>
      match c.sess with
      | none => none
      | some s =>
        let d := pyUpdate s.extracted (extract_vehicle_data vres)
        some ⟨.confirmData, some { s with car_doc := some path, extracted := d },
          c.log ++ [.foundSummary (dget d "full_name" "Невідомо") (dget d "passport_number" "Невідомо")
            (dget d "car_brand" "Невідомо") (dget d "car_model" "Невідомо") (dget d "vin_number" "Невідомо")]⟩
    | _ => some c
  | .text t ai =>
    match c.state with
    | .askPassport => some ⟨c.state, c.sess, c.log ++ [unexpectedReply t ai]⟩
    | .askCarDoc => some ⟨c.state, c.sess, c.log ++ [unexpectedReply t ai]⟩
    | .confirmData =>
      if pyLower t = "так" then some ⟨.priceConfirm, c.sess, c.log ++ [.priceOffer]⟩
      else some ⟨.askPassport, c.sess, c.log ++ [.askPassportAgain]⟩
    | .priceConfirm =>
      let ut := pyLower t
      if strContains ut "чому" || strContains ut "можна" || strContains ut "дешев" then
        some ⟨.priceConfirm, c.sess, c.log ++ [.priceExplanation (ask_ai_about_price ai), .priceAgreeAgain]⟩
      else if ut = "так" then issue_policy c.sess c.log
      else some ⟨.priceReconfirm, c.sess, c.log ++ [.priceFixedReconfirm]⟩
    | .priceReconfirm =>
      let u := pyStrip (pyLower t)
      if u = "так" ∨ u = "згоден" ∨ u = "добре" ∨ u = "ок" then
        issue_policy c.sess c.log
      else if u = "ні" ∨ u = "не згоден" ∨ u = "ніт" then
        some ⟨.ended, c.sess, c.log ++ [.reconfirmFarewell]⟩
      else
        match ai with
        | some r => some ⟨.priceReconfirm, c.sess, c.log ++ [.reconfirmAiReply (pyStrip r), .reconfirmReAsk]⟩
        | none => some ⟨.priceReconfirm, c.sess, c.log ++ [.reconfirmAiError]⟩
    | .afterPolicy =>
      if strContains (pyLower t) "дякую" then
        some ⟨.ended, c.sess, c.log ++ [.afterPolicyFarewell]⟩
      else
        some ⟨.askPassport, c.sess, c.log ++ [.startGreeting]⟩
    | .ended => some c

/-- Run a sequence of events, propagating a handler crash. -/
def run (c : Conf) : List Event → Option Conf
  | [] => some c
  | ev :: evs =>
    match step c ev with
    | none => none
    | some c2 => run c2 evs

/-- The configuration at process start: no active conversation, no
session entry, nothing sent. -/
def conf0 : Conf := ⟨.ended, none, []⟩

/-- The message is a rendered policy document. -/
def isPolicyMsg : Msg → Bool
  | .policyDoc _ => true
  | _ => false


/-- find? for key `k` ignores a filter whose predicate holds on every
entry bound to `k`. -/
lemma find?_filter_key (u : List (String × String)) (f : String × String → Bool) (k : String)
    (hf : ∀ q : String × String, q.1 = k → f q = true) :
    (u.filter f).find? (fun q => q.1 == k) = u.find? (fun q => q.1 == k) := by
  induction u with
  | nil => rfl
  | cons q u ih =>
    by_cases hk : q.1 = k
    · rw [List.filter_cons, if_pos (hf q hk), List.find?_cons, List.find?_cons]
      simp [hk]
    · rw [List.filter_cons]
      have hq : (q.1 == k) = false := by simp [hk]
      by_cases hfq : f q = true
      · rw [if_pos hfq, List.find?_cons, List.find?_cons, hq, ih]
      · rw [if_neg hfq, List.find?_cons, hq, ih]

lemma updFn_fst (u : List (String × String)) (p : String × String) :
    (updFn u p).1 = p.1 := by
  unfold updFn
  cases h : u.find? (fun q => q.1 == p.1) with
  | none => rfl
  | some q => simpa using List.find?_some h

lemma find?_key_map_updFn (d u : List (String × String)) (k : String) :
    (d.map (updFn u)).find? (fun p => p.1 == k) =
      (d.find? (fun p => p.1 == k)).map (updFn u) := by
  rw [List.find?_map]
  have hc : ((fun p : String × String => p.1 == k) ∘ updFn u) =
      fun p : String × String => p.1 == k := by
    funext p
    simp [Function.comp, updFn_fst]
  rw [hc]

lemma hasKeyB_pyUpdate (d u : List (String × String)) (k : String) :
    hasKeyB (pyUpdate d u) k = (hasKeyB d k || hasKeyB u k) := by
  unfold hasKeyB pyUpdate
  rw [List.find?_append, find?_key_map_updFn]
  cases hd : d.find? (fun p => p.1 == k) with
  | some p => simp [hd]
  | none =>
    rw [find?_filter_key u _ k (fun q hq => by rw [hq]; simp [hasKeyB, hd])]
    simp

lemma dget_pyUpdate (d u : List (String × String)) (k df : String) :
    dget (pyUpdate d u) k df = if hasKeyB u k then dget u k df else dget d k df := by
  unfold dget pyUpdate
  rw [List.find?_append, find?_key_map_updFn]
  cases hd : d.find? (fun p => p.1 == k) with
  | some p =>
    have hp : p.1 = k := by simpa using List.find?_some hd
    simp only [Option.map_some', Option.or_some]
    unfold updFn
    rw [hp]
    cases hu : u.find? (fun q => q.1 == k) with
    | some q => simp [hasKeyB, hu]
    | none => simp [hasKeyB, hu]
  | none =>
    simp only [Option.map_none', Option.none_or]
    rw [find?_filter_key u _ k (fun q hq => by rw [hq]; simp [hasKeyB, hd])]
    cases hu : u.find? (fun q => q.1 == k) with
    | some q => simp [hasKeyB, hu]
    | none => simp [hasKeyB, hu]

/-- The passport extraction result always binds both passport keys. -/
lemma extract_passport_keys (res : Option PassportRaw) :
    hasKeyB (extract_passport_data res) "full_name" = true ∧
      hasKeyB (extract_passport_data res) "passport_number" = true := by
  cases res with
  | none => constructor <;> rfl
  | some r => constructor <;> simp [extract_passport_data, hasKeyB, List.find?_cons]

/-- The vehicle extraction result always binds the three vehicle keys. -/
lemma extract_vehicle_keys (res : Option VehicleRaw) :
    hasKeyB (extract_vehicle_data res) "car_brand" = true ∧
      hasKeyB (extract_vehicle_data res) "car_model" = true ∧
      hasKeyB (extract_vehicle_data res) "vin_number" = true := by
  cases res with
  | none => refine ⟨rfl, rfl, rfl⟩
  | some r => refine ⟨?_, ?_, ?_⟩ <;> simp [extract_vehicle_data, hasKeyB, List.find?_cons]

/-- States whose handler table can only be entered once a session entry
exists in `user_data_storage`. -/
def sessReq (st : State) : Prop :=
  st = .askCarDoc ∨ st = .confirmData ∨ st = .priceConfirm ∨ st = .priceReconfirm ∨
    st = .afterPolicy

/-- States reachable only after the vehicle merge, where all five
extracted keys are present. -/
def fiveReq (st : State) : Prop :=
  st = .confirmData ∨ st = .priceConfirm ∨ st = .priceReconfirm ∨ st = .afterPolicy

/-- All five document keys are bound. -/
def hasAllFive (d : List (String × String)) : Bool :=
  hasKeyB d "full_name" && hasKeyB d "passport_number" && hasKeyB d "car_brand" &&
    hasKeyB d "car_model" && hasKeyB d "vin_number"

/-- Reachability invariant of the conversation: a session entry exists in
every state past `askPassport`, it always binds the two passport keys,
and past the vehicle merge it binds all five keys. -/
def Inv (c : Conf) : Prop :=
  (sessReq c.state → ∃ s, c.sess = some s) ∧
  (∀ s, c.sess = some s →
    hasKeyB s.extracted "full_name" = true ∧ hasKeyB s.extracted "passport_number" = true) ∧
  (fiveReq c.state → ∃ s, c.sess = some s ∧ hasAllFive s.extracted = true)

lemma inv_step (c : Conf) (ev : Event) (h : Inv c) :
    ∃ c2, step c ev = some c2 ∧ Inv c2 := by
  obtain ⟨h1, h2, h3⟩ := h
  obtain ⟨st, sess, log⟩ := c
  cases ev with
  | cancelCmd =>
    cases st with
    | ended => exact ⟨_, rfl, h1, h2, h3⟩
    | askPassport =>
      refine ⟨_, rfl, ?_, h2, ?_⟩
      · intro hreq; exact absurd hreq (by simp [sessReq])
      · intro hreq; exact absurd hreq (by simp [fiveReq])
    | askCarDoc =>
      refine ⟨_, rfl, ?_, h2, ?_⟩
      · intro hreq; exact absurd hreq (by simp [sessReq])
      · intro hreq; exact absurd hreq (by simp [fiveReq])
    | confirmData =>
      refine ⟨_, rfl, ?_, h2, ?_⟩
      · intro hreq; exact absurd hreq (by simp [sessReq])
      · intro hreq; exact absurd hreq (by simp [fiveReq])
    | priceConfirm =>
      refine ⟨_, rfl, ?_, h2, ?_⟩
      · intro hreq; exact absurd hreq (by simp [sessReq])
      · intro hreq; exact absurd hreq (by simp [fiveReq])
    | priceReconfirm =>
      refine ⟨_, rfl, ?_, h2, ?_⟩
      · intro hreq; exact absurd hreq (by simp [sessReq])
      · intro hreq; exact absurd hreq (by simp [fiveReq])
    | afterPolicy =>
      refine ⟨_, rfl, ?_, h2, ?_⟩
      · intro hreq; exact absurd hreq (by simp [sessReq])
      · intro hreq; exact absurd hreq (by simp [fiveReq])
  | startCmd =>
    cases st with
    | ended =>
      refine ⟨_, rfl, ?_, h2, ?_⟩
      · intro hreq; exact absurd hreq (by simp [sessReq])
      · intro hreq; exact absurd hreq (by simp [fiveReq])
    | askPassport => exact ⟨_, rfl, h1, h2, h3⟩
    | askCarDoc => exact ⟨_, rfl, h1, h2, h3⟩
    | confirmData => exact ⟨_, rfl, h1, h2, h3⟩
    | priceConfirm => exact ⟨_, rfl, h1, h2, h3⟩
    | priceReconfirm => exact ⟨_, rfl, h1, h2, h3⟩
    | afterPolicy => exact ⟨_, rfl, h1, h2, h3⟩
  | photo path pres vres =>
    cases st with
    | askPassport =>
      refine ⟨_, rfl, ?_, ?_, ?_⟩
      · intro _; exact ⟨_, rfl⟩
      · intro s hs
        injection hs with hs
        subst hs
        exact extract_passport_keys pres
      · intro hreq; exact absurd hreq (by simp [fiveReq])
    | askCarDoc =>
      obtain ⟨s, hs⟩ := h1 (Or.inl rfl)
      subst hs
      refine ⟨_, rfl, ?_, ?_, ?_⟩
      · intro _; exact ⟨_, rfl⟩
      · intro s2 hs2
        injection hs2 with hs2
        subst hs2
        constructor <;>
          simp [hasKeyB_pyUpdate, (h2 s rfl).1, (h2 s rfl).2]
      · intro _
        refine ⟨_, rfl, ?_⟩
        have hv := extract_vehicle_keys vres
        simp [hasAllFive, hasKeyB_pyUpdate, (h2 s rfl).1, (h2 s rfl).2, hv.1, hv.2.1, hv.2.2]
    | confirmData => exact ⟨_, rfl, h1, h2, h3⟩
    | priceConfirm => exact ⟨_, rfl, h1, h2, h3⟩
    | priceReconfirm => exact ⟨_, rfl, h1, h2, h3⟩
    | afterPolicy => exact ⟨_, rfl, h1, h2, h3⟩
    | ended => exact ⟨_, rfl, h1, h2, h3⟩
  | text t ai =>
    cases st with
    | askPassport => exact ⟨_, rfl, h1, h2, h3⟩
    | askCarDoc => exact ⟨_, rfl, h1, h2, h3⟩
    | confirmData =>
      obtain ⟨s, hs, hfive⟩ := h3 (Or.inl rfl)
      by_cases htak : pyLower t = "так"
      · refine ⟨⟨.priceConfirm, sess, log ++ [.priceOffer]⟩, by simp [step, htak], ?_, h2, ?_⟩
        · intro _; exact ⟨s, hs⟩
        · intro _; exact ⟨s, hs, hfive⟩
      · refine ⟨⟨.askPassport, sess, log ++ [.askPassportAgain]⟩, by simp [step, htak], ?_, h2, ?_⟩
        · intro hreq; exact absurd hreq (by simp [sessReq])
        · intro hreq; exact absurd hreq (by simp [fiveReq])
    | priceConfirm =>
      obtain ⟨s, hs, hfive⟩ := h3 (Or.inr (Or.inl rfl))
      subst hs
      by_cases hcue : (strContains (pyLower t) "чому" || strContains (pyLower t) "можна" ||
          strContains (pyLower t) "дешев") = true
      · refine ⟨⟨.priceConfirm, some s,
          log ++ [.priceExplanation (ask_ai_about_price ai), .priceAgreeAgain]⟩,
          by simp [step, hcue], ?_, h2, ?_⟩
        · intro _; exact ⟨s, rfl⟩
        · intro _; exact ⟨s, rfl, hfive⟩
      · by_cases htak : pyLower t = "так"
        · refine ⟨⟨.afterPolicy, some s,
            log ++ [.policyCreatedNotice, .policyDoc (renderPolicy s.extracted), .offerAnotherPolicy]⟩,
            by simp [step, hcue, htak, issue_policy]; decide, ?_, h2, ?_⟩
          · intro _; exact ⟨s, rfl⟩
          · intro _; exact ⟨s, rfl, hfive⟩
        · refine ⟨⟨.priceReconfirm, some s, log ++ [.priceFixedReconfirm]⟩,
            by simp [step, hcue, htak], ?_, h2, ?_⟩
          · intro _; exact ⟨s, rfl⟩
          · intro _; exact ⟨s, rfl, hfive⟩
    | priceReconfirm =>
      obtain ⟨s, hs, hfive⟩ := h3 (Or.inr (Or.inr (Or.inl rfl)))
      subst hs
      by_cases haff : pyStrip (pyLower t) = "так" ∨ pyStrip (pyLower t) = "згоден" ∨
          pyStrip (pyLower t) = "добре" ∨ pyStrip (pyLower t) = "ок"
      · refine ⟨⟨.afterPolicy, some s,
          log ++ [.policyCreatedNotice, .policyDoc (renderPolicy s.extracted), .offerAnotherPolicy]⟩,
          by simp [step, haff, issue_policy], ?_, h2, ?_⟩
        · intro _; exact ⟨s, rfl⟩
        · intro _; exact ⟨s, rfl, hfive⟩
      · by_cases hneg : pyStrip (pyLower t) = "ні" ∨ pyStrip (pyLower t) = "не згоден" ∨
            pyStrip (pyLower t) = "ніт"
        · refine ⟨⟨.ended, some s, log ++ [.reconfirmFarewell]⟩,
            by simp [step, haff, hneg], ?_, h2, ?_⟩
          · intro hreq; exact absurd hreq (by simp [sessReq])
          · intro hreq; exact absurd hreq (by simp [fiveReq])
        · cases ai with
          | some r =>
            refine ⟨⟨.priceReconfirm, some s,
              log ++ [.reconfirmAiReply (pyStrip r), .reconfirmReAsk]⟩,
              by simp [step, haff, hneg], ?_, h2, ?_⟩
            · intro _; exact ⟨s, rfl⟩
            · intro _; exact ⟨s, rfl, hfive⟩
          | none =>
            refine ⟨⟨.priceReconfirm, some s, log ++ [.reconfirmAiError]⟩,
              by simp [step, haff, hneg], ?_, h2, ?_⟩
            · intro _; exact ⟨s, rfl⟩
            · intro _; exact ⟨s, rfl, hfive⟩
    | afterPolicy =>
      by_cases hth : strContains (pyLower t) "дякую" = true
      · refine ⟨⟨.ended, sess, log ++ [.afterPolicyFarewell]⟩, by simp [step, hth], ?_, h2, ?_⟩
        · intro hreq; exact absurd hreq (by simp [sessReq])
        · intro hreq; exact absurd hreq (by simp [fiveReq])
      · refine ⟨⟨.askPassport, sess, log ++ [.startGreeting]⟩, by simp [step, hth], ?_, h2, ?_⟩
        · intro hreq; exact absurd hreq (by simp [sessReq])
        · intro hreq; exact absurd hreq (by simp [fiveReq])
    | ended => exact ⟨_, rfl, h1, h2, h3⟩

lemma run_inv (evs : List Event) (c : Conf) (h : Inv c) :
    ∃ c2, run c evs = some c2 ∧ Inv c2 := by
  induction evs generalizing c with
  | nil => exact ⟨c, rfl, h⟩
  | cons ev evs ih =>
    obtain ⟨c1, hstep, hinv1⟩ := inv_step c ev h
    obtain ⟨c2, hrun, hinv2⟩ := ih c1 hinv1
    exact ⟨c2, by simp [run, hstep, hrun], hinv2⟩

lemma inv_conf0 : Inv conf0 := by
  refine ⟨?_, ?_, ?_⟩
  · intro hreq; exact absurd hreq (by simp [sessReq, conf0])
  · intro s hs; simp [conf0] at hs
  · intro hreq; exact absurd hreq (by simp [fiveReq, conf0])


lemma all_dropWhile_iff (p : Char → Bool) (l : List Char) :
    (∀ x ∈ l.dropWhile p, p x = true) ↔ (∀ x ∈ l, p x = true) := by
  constructor
  · intro h x hx
    have hsplit : x ∈ l.takeWhile p ++ l.dropWhile p := by
      rw [List.takeWhile_append_dropWhile]
      exact hx
    rcases List.mem_append.mp hsplit with h1 | h2
    · exact List.mem_takeWhile_imp h1
    · exact h x h2
  · intro h x hx
    exact h x ((List.dropWhile_sublist p).subset hx)

lemma stripChars_eq_nil_iff (l : List Char) :
    stripChars l = [] ↔ l.all isPySpace = true := by
  unfold stripChars
  rw [List.reverse_eq_nil_iff, List.dropWhile_eq_nil_iff, List.all_eq_true]
  constructor
  · intro h
    exact (all_dropWhile_iff _ _).mp (fun y hy => h y (List.mem_reverse.mpr hy))
  · intro h x hx
    exact h x ((List.dropWhile_sublist _).subset (List.mem_reverse.mp hx))

lemma pyStrip_eq_empty_iff (s : String) :
    pyStrip s = "" ↔ s.data.all isPySpace = true := by
  unfold pyStrip
  rw [String.ext_iff]
  exact stripChars_eq_nil_iff _

lemma stripChars_append_right (l1 l2 : List Char) (h : l2.all isPySpace = true) :
    stripChars (l1 ++ l2) = stripChars l1 := by
  have h2 : l2.dropWhile isPySpace = [] :=
    List.dropWhile_eq_nil_iff.mpr (fun x hx => List.all_eq_true.mp h x hx)
  unfold stripChars
  by_cases h1 : l1.dropWhile isPySpace = []
  · rw [List.dropWhile_append, h1]
    simp [h2]
  · rw [List.dropWhile_append, if_neg (by simp [h1]), List.reverse_append,
      List.dropWhile_append,
      if_pos (by
        simp only [List.isEmpty_iff]
        exact List.dropWhile_eq_nil_iff.mpr
          (fun x hx => List.all_eq_true.mp h x (List.mem_reverse.mp hx)))]

lemma stripChars_append_left (l1 l2 : List Char) (h : l1.all isPySpace = true) :
    stripChars (l1 ++ l2) = stripChars l2 := by
  have h1 : l1.dropWhile isPySpace = [] :=
    List.dropWhile_eq_nil_iff.mpr (fun x hx => List.all_eq_true.mp h x hx)
  unfold stripChars
  rw [List.dropWhile_append, h1]
  simp

lemma isPySpace_space : isPySpace ' ' = true := rfl

lemma data_join (g s : String) :
    (g ++ " " ++ s).data = g.data ++ (' ' :: s.data) := by
  rw [String.data_append, String.data_append]
  simp

lemma pyStrip_join_right (g s : String) (h : s.data.all isPySpace = true) :
    pyStrip (g ++ " " ++ s) = pyStrip g := by
  unfold pyStrip
  rw [data_join]
  congr 1
  exact stripChars_append_right _ _ (by simp [h, isPySpace_space])

lemma pyStrip_join_left (g s : String) (h : g.data.all isPySpace = true) :
    pyStrip (g ++ " " ++ s) = pyStrip s := by
  unfold pyStrip
  rw [data_join, show g.data ++ (' ' :: s.data) = (g.data ++ [' ']) ++ s.data by simp]
  congr 1
  exact stripChars_append_left _ _ (by simp [h, isPySpace_space])


/-- Claim C1: for every user starting in AwaitingPassport, the input
sequence photo, photo, "так", "так" causes exactly one rendered policy
document to be sent — the one containing the merged passport and vehicle
fields from the two extraction calls — and leaves the conversation in
the AfterPolicyIssued state. -/
theorem C1_happy_path_issues_one_policy (sess0 : Option Session) (p1 p2 : String)
    (pr pr2 : Option PassportRaw) (vr vr2 : Option VehicleRaw) (a1 a2 : Option String) :
    ∃ c, run ⟨.askPassport, sess0, []⟩
        [.photo p1 pr vr, .photo p2 pr2 vr2, .text "так" a1, .text "так" a2] = some c ∧
      c.state = .afterPolicy ∧
      c.log.filter isPolicyMsg =
        [.policyDoc (renderPolicy (pyUpdate (extract_passport_data pr) (extract_vehicle_data vr2)))] := by
  refine ⟨_, rfl, rfl, ?_⟩
  simp [isPolicyMsg, List.filter]

/-- Claim C2: whenever the policy-issuance transition can execute (the
conversation is in ConfirmPrice or ReconfirmPrice), the session's
extracted mapping contains all five keys, for any combination of
succeeding and failing extraction calls on any reachable run; and
issuing a policy with all five fields "Unknown" still renders a complete
document with "Unknown" in every field slot. -/
theorem C2_extracted_fields_complete :
    (∀ evs c, run conf0 evs = some c →
      c.state = .priceConfirm ∨ c.state = .priceReconfirm →
      ∃ s, c.sess = some s ∧ hasAllFive s.extracted = true) ∧
    renderPolicy (pyUpdate (extract_passport_data none) (extract_vehicle_data none)) =
      "Страховий Поліс\n\nІм\x27я застрахованого: Unknown\nНомер паспорта: Unknown\nАвтомобіль: Unknown Unknown\nVIN: Unknown\n\nСума до сплати: 100 USD\n\nЦей документ є підтвердженням оформлення автострахування." := by
  constructor
  · intro evs c hrun hst
    obtain ⟨c2, hrun2, hinv⟩ := run_inv evs conf0 inv_conf0
    rw [hrun] at hrun2
    injection hrun2 with h
    subst h
    refine hinv.2.2 ?_
    rcases hst with h | h
    · exact Or.inr (Or.inl h)
    · exact Or.inr (Or.inr (Or.inl h))
  · decide

theorem C2_witness :
    ∃ s, (⟨State.priceConfirm,
        some ⟨"p", [("full_name", "Unknown"), ("passport_number", "Unknown"),
          ("car_brand", "Unknown"), ("car_model", "Unknown"), ("vin_number", "Unknown")], some "q"⟩,
        [Msg.startGreeting, Msg.thanksAskCarDoc,
          Msg.foundSummary "Unknown" "Unknown" "Unknown" "Unknown" "Unknown",
          Msg.priceOffer]⟩ : Conf).sess = some s ∧ hasAllFive s.extracted = true :=
  C2_extracted_fields_complete.1
    [.startCmd, .photo "p" none none, .photo "q" none none, .text "так" none]
    _ rfl (Or.inl rfl)

/-- Claim C3: the affirmative rule of ConfirmExtractedData — and of
ConfirmPrice when no price-objection cue fires — is exact
case-insensitive equality with the single token "так", while the
affirmative rule of ReconfirmPrice is case-insensitive,
whitespace-stripped membership in the set так/згоден/добре/ок; the two
rules differ, witnessed by the input "Згоден", accepted by
ReconfirmPrice but not by the other two states. -/
theorem C3_affirmative_rules :
    (∀ t a sess log c, step ⟨.confirmData, sess, log⟩ (.text t a) = some c →
      (c.state = .priceConfirm ↔ pyLower t = "так")) ∧
    (∀ t a sess log c,
      (strContains (pyLower t) "чому" || strContains (pyLower t) "можна" ||
        strContains (pyLower t) "дешев") = false →
      step ⟨.priceConfirm, sess, log⟩ (.text t a) = some c →
      (c.state = .afterPolicy ↔ pyLower t = "так")) ∧
    (∀ t a sess log c, step ⟨.priceReconfirm, sess, log⟩ (.text t a) = some c →
      (c.state = .afterPolicy ↔
        (pyStrip (pyLower t) = "так" ∨ pyStrip (pyLower t) = "згоден" ∨
          pyStrip (pyLower t) = "добре" ∨ pyStrip (pyLower t) = "ок"))) ∧
    (pyStrip (pyLower "Згоден") = "згоден" ∧ pyLower "Згоден" ≠ "так") := by
  refine ⟨?_, ?_, ?_, by decide⟩
  · intro t a sess log c h
    by_cases htak : pyLower t = "так"
    · simp only [step, htak, if_pos] at h
      simp at h
      subst h
      simp [htak]
    · simp only [step, if_neg htak] at h
      simp at h
      subst h
      simp [htak]
  · intro t a sess log c hcue h
    by_cases htak : pyLower t = "так"
    · cases hsess : sess with
      | none =>
        subst hsess
        simp only [step, htak] at h
        rw [if_neg (by decide)] at h
        simp [issue_policy] at h
      | some s =>
        subst hsess
        simp only [step, htak] at h
        rw [if_neg (by decide)] at h
        simp [issue_policy] at h
        subst h
        simp [htak]
    · simp only [step] at h
      rw [if_neg (by simp [hcue]), if_neg htak] at h
      simp at h
      subst h
      simp [htak]
  · intro t a sess log c h
    by_cases haff : pyStrip (pyLower t) = "так" ∨ pyStrip (pyLower t) = "згоден" ∨
        pyStrip (pyLower t) = "добре" ∨ pyStrip (pyLower t) = "ок"
    · simp only [step, haff, if_pos] at h
      cases hsess : sess with
      | none =>
        rw [hsess] at h
        simp [issue_policy] at h
      | some s =>
        rw [hsess] at h
        simp [issue_policy] at h
        subst h
        simp [haff]
    · by_cases hneg : pyStrip (pyLower t) = "ні" ∨ pyStrip (pyLower t) = "не згоден" ∨
          pyStrip (pyLower t) = "ніт"
      · simp only [step, haff, hneg] at h
        simp at h
        subst h
        simp [haff]
      · cases a with
        | some r =>
          simp only [step, haff, hneg] at h
          simp at h
          subst h
          simp [haff]
        | none =>
          simp only [step, haff, hneg] at h
          simp at h
          subst h
          simp [haff]

theorem C3_witness :
    (⟨State.afterPolicy,
      some ⟨"p", [("full_name", "A")], some "q"⟩,
      [Msg.policyCreatedNotice,
        Msg.policyDoc (renderPolicy [("full_name", "A")]), Msg.offerAnotherPolicy]⟩ : Conf).state
        = State.afterPolicy ↔
      (pyStrip (pyLower "Згоден") = "так" ∨ pyStrip (pyLower "Згоден") = "згоден" ∨
        pyStrip (pyLower "Згоден") = "добре" ∨ pyStrip (pyLower "Згоден") = "ок") :=
  C3_affirmative_rules.2.2.1 "Згоден" none (some ⟨"p", [("full_name", "A")], some "q"⟩) [] _ rfl

/-- Claim C4: when an extraction call raises, every field of that
call's schema degrades to "Unknown", no exception escapes the handler
(the step still returns a configuration), and the conversation advances
to the next state: AwaitingCarDoc after the passport photo,
ConfirmExtractedData after the vehicle photo, where the three vehicle
fields of the merged mapping all read "Unknown". -/
theorem C4_extraction_error_degrades_and_advances :
    (∀ (sess0 : Option Session) (log : List Msg) (p : String) (vr : Option VehicleRaw),
      ∃ c, step ⟨.askPassport, sess0, log⟩ (.photo p none vr) = some c ∧
        c.state = .askCarDoc ∧
        c.sess = some ⟨p, [("full_name", "Unknown"), ("passport_number", "Unknown")], none⟩) ∧
    (∀ (s0 : Session) (log : List Msg) (p : String) (pr : Option PassportRaw),
      ∃ c, step ⟨.askCarDoc, some s0, log⟩ (.photo p pr none) = some c ∧
        c.state = .confirmData ∧
        ∃ s1, c.sess = some s1 ∧
          s1.extracted = pyUpdate s0.extracted
            [("car_brand", "Unknown"), ("car_model", "Unknown"), ("vin_number", "Unknown")] ∧
          dget s1.extracted "car_brand" "" = "Unknown" ∧
          dget s1.extracted "car_model" "" = "Unknown" ∧
          dget s1.extracted "vin_number" "" = "Unknown") := by
  constructor
  · intro sess0 log p vr
    exact ⟨_, rfl, rfl, rfl⟩
  · intro s0 log p pr
    refine ⟨_, rfl, rfl,
      ⟨s0.passport_photo, pyUpdate s0.extracted (extract_vehicle_data none), some p⟩,
      rfl, rfl, ?_, ?_, ?_⟩
    · show dget (pyUpdate s0.extracted (extract_vehicle_data none)) "car_brand" "" = "Unknown"
      rw [dget_pyUpdate, if_pos (by decide)]
      decide
    · show dget (pyUpdate s0.extracted (extract_vehicle_data none)) "car_model" "" = "Unknown"
      rw [dget_pyUpdate, if_pos (by decide)]
      decide
    · show dget (pyUpdate s0.extracted (extract_vehicle_data none)) "vin_number" "" = "Unknown"
      rw [dget_pyUpdate, if_pos (by decide)]
      decide

/-- Claim C5: in ReconfirmPrice every input in the negative set
(lowered and stripped to "ні", "не згоден" or "ніт") sends exactly the
farewell, ends the conversation, and adds no policy document to the
transcript. -/
theorem C5_reconfirm_negative_ends (t : String) (a : Option String) (sess : Option Session)
    (log : List Msg)
    (h : pyStrip (pyLower t) = "ні" ∨ pyStrip (pyLower t) = "не згоден" ∨
      pyStrip (pyLower t) = "ніт") :
    step ⟨.priceReconfirm, sess, log⟩ (.text t a) =
      some ⟨.ended, sess, log ++ [.reconfirmFarewell]⟩ ∧
    (log ++ [Msg.reconfirmFarewell]).filter isPolicyMsg = log.filter isPolicyMsg := by
  have hnaff : ¬(pyStrip (pyLower t) = "так" ∨ pyStrip (pyLower t) = "згоден" ∨
      pyStrip (pyLower t) = "добре" ∨ pyStrip (pyLower t) = "ок") := by
    rcases h with h | h | h <;> rw [h] <;> decide
  refine ⟨by simp [step, hnaff, h], by simp [isPolicyMsg]⟩

theorem C5_witness :
    step ⟨State.priceReconfirm, none, []⟩ (Event.text "ні" none) =
      some ⟨State.ended, none, [Msg.reconfirmFarewell]⟩ ∧
    ([] ++ [Msg.reconfirmFarewell]).filter isPolicyMsg = ([] : List Msg).filter isPolicyMsg :=
  C5_reconfirm_negative_ends "ні" none none [] (Or.inl (by decide))

/-- Claim C6: in ReconfirmPrice every input in neither the affirmative
nor the negative set triggers the language-model reconfirmation call:
on success its stripped reply is sent followed by the Yes/No re-ask, on
failure the fixed degraded apology is sent instead, and in both cases
the state stays ReconfirmPrice. -/
theorem C6_reconfirm_fallback (t r : String) (sess : Option Session) (log : List Msg)
    (haff : ¬(pyStrip (pyLower t) = "так" ∨ pyStrip (pyLower t) = "згоден" ∨
      pyStrip (pyLower t) = "добре" ∨ pyStrip (pyLower t) = "ок"))
    (hneg : ¬(pyStrip (pyLower t) = "ні" ∨ pyStrip (pyLower t) = "не згоден" ∨
      pyStrip (pyLower t) = "ніт")) :
    step ⟨.priceReconfirm, sess, log⟩ (.text t (some r)) =
      some ⟨.priceReconfirm, sess, log ++ [.reconfirmAiReply (pyStrip r), .reconfirmReAsk]⟩ ∧
    step ⟨.priceReconfirm, sess, log⟩ (.text t none) =
      some ⟨.priceReconfirm, sess, log ++ [.reconfirmAiError]⟩ := by
  constructor <;> simp [step, haff, hneg]

theorem C6_witness :
    step ⟨State.priceReconfirm, none, []⟩ (Event.text "чому дорого" (some "Бо тариф")) =
      some ⟨State.priceReconfirm, none,
        [Msg.reconfirmAiReply (pyStrip "Бо тариф"), Msg.reconfirmReAsk]⟩ ∧
    step ⟨State.priceReconfirm, none, []⟩ (Event.text "чому дорого" none) =
      some ⟨State.priceReconfirm, none, [Msg.reconfirmAiError]⟩ :=
  C6_reconfirm_fallback "чому дорого" "Бо тариф" none [] (by decide) (by decide)

/-- Claim C7: in ConfirmPrice every text containing a price-objection
cue ("чому", "можна" or "дешев" as a substring of the lowered text)
triggers the price-justification call, sends its reply followed by the
re-sent Yes/No prompt, keeps the state at ConfirmPrice, and adds no
policy document — the cue check takes precedence over issuing. -/
theorem C7_price_objection_cue (t : String) (a : Option String) (sess : Option Session)
    (log : List Msg)
    (hcue : (strContains (pyLower t) "чому" || strContains (pyLower t) "можна" ||
      strContains (pyLower t) "дешев") = true) :
    step ⟨.priceConfirm, sess, log⟩ (.text t a) =
      some ⟨.priceConfirm, sess,
        log ++ [.priceExplanation (ask_ai_about_price a), .priceAgreeAgain]⟩ ∧
    (log ++ [Msg.priceExplanation (ask_ai_about_price a), Msg.priceAgreeAgain]).filter isPolicyMsg =
      log.filter isPolicyMsg := by
  refine ⟨by simp [step, hcue], by simp [isPolicyMsg]⟩

theorem C7_witness :
    step ⟨State.priceConfirm, none, []⟩ (Event.text "Чому так дорого?" none) =
      some ⟨State.priceConfirm, none,
        [Msg.priceExplanation (ask_ai_about_price none), Msg.priceAgreeAgain]⟩ ∧
    ([] ++ [Msg.priceExplanation (ask_ai_about_price none), Msg.priceAgreeAgain]).filter isPolicyMsg
      = ([] : List Msg).filter isPolicyMsg :=
  C7_price_objection_cue "Чому так дорого?" none none [] (by decide)

/-- Claim C8 counterexample: a concrete run in which the key
"vin_number" is present in the session's extracted mapping after the
vehicle merge, yet after rejecting the summary and submitting a new
passport photo the key is gone — the restart replaces the mapping, so
keys are not "never removed". -/
theorem C8_counterexample :
    ∃ c1 c2,
      run ⟨.askPassport, none, []⟩
        [.photo "p1" (some ⟨some "Петренко", some "Іван", some "AA123456"⟩) none,
         .photo "c1" none (some ⟨some "Corolla", some "Toyota", some "VIN777"⟩),
         .text "ні" none] = some c1 ∧
      run ⟨.askPassport, none, []⟩
        [.photo "p1" (some ⟨some "Петренко", some "Іван", some "AA123456"⟩) none,
         .photo "c1" none (some ⟨some "Corolla", some "Toyota", some "VIN777"⟩),
         .text "ні" none,
         .photo "p2" (some ⟨some "Петренко", some "Іван", some "AA123456"⟩) none] = some c2 ∧
      (∃ s, c1.sess = some s ∧ hasKeyB s.extracted "vin_number" = true) ∧
      (∃ s, c2.sess = some s ∧ hasKeyB s.extracted "vin_number" = false) := by
  refine ⟨_, _, rfl, rfl, ⟨_, rfl, by decide⟩, ⟨_, rfl, by decide⟩⟩

/-- Claim C8 amended: within one pass of the flow the vehicle-merge
step only adds fields — every key present in the session before the
merge is still present after it; but receiving a passport photo in
AwaitingPassport replaces the session's extracted mapping with the
fresh passport-only extraction result, so previously merged vehicle
keys do not survive a restart. -/
theorem C8_amended_merge_preserves_replace_resets :
    (∀ (s0 : Session) (log : List Msg) (p : String) (pr : Option PassportRaw)
        (vr : Option VehicleRaw) (c : Conf) (k : String),
      step ⟨.askCarDoc, some s0, log⟩ (.photo p pr vr) = some c →
      hasKeyB s0.extracted k = true →
      ∃ s1, c.sess = some s1 ∧ hasKeyB s1.extracted k = true) ∧
    (∀ (sess0 : Option Session) (log : List Msg) (p : String) (pr : Option PassportRaw)
        (vr : Option VehicleRaw) (c : Conf),
      step ⟨.askPassport, sess0, log⟩ (.photo p pr vr) = some c →
      ∃ s1, c.sess = some s1 ∧ s1.extracted = extract_passport_data pr) := by
  constructor
  · intro s0 log p pr vr c k h hk
    simp [step] at h
    subst h
    refine ⟨_, rfl, ?_⟩
    simp [hasKeyB_pyUpdate, hk]
  · intro sess0 log p pr vr c h
    simp [step] at h
    subst h
    exact ⟨_, rfl, rfl⟩

theorem C8_witness :
    ∃ s1, (⟨State.confirmData,
        some ⟨"p", pyUpdate [("vin_number", "V0")] (extract_vehicle_data none), some "c"⟩,
        [Msg.foundSummary (dget (pyUpdate [("vin_number", "V0")] (extract_vehicle_data none)) "full_name" "Невідомо")
          (dget (pyUpdate [("vin_number", "V0")] (extract_vehicle_data none)) "passport_number" "Невідомо")
          (dget (pyUpdate [("vin_number", "V0")] (extract_vehicle_data none)) "car_brand" "Невідомо")
          (dget (pyUpdate [("vin_number", "V0")] (extract_vehicle_data none)) "car_model" "Невідомо")
          (dget (pyUpdate [("vin_number", "V0")] (extract_vehicle_data none)) "vin_number" "Невідомо")]⟩ : Conf).sess
        = some s1 ∧ hasKeyB s1.extracted "vin_number" = true :=
  C8_amended_merge_preserves_replace_resets.1 ⟨"p", [("vin_number", "V0")], none⟩ [] "c" none none
    _ "vin_number" rfl (by decide)

/-- Claim C9: under every event sequence from the process start, the
run never crashes (the unguarded session-store lookups in the car-doc
handler and the policy-issuance sub-flow never hit a missing entry),
and in every state past AwaitingPassport the session entry exists. -/
theorem C9_session_never_missing (evs : List Event) :
    ∃ c, run conf0 evs = some c ∧ (sessReq c.state → ∃ s, c.sess = some s) := by
  obtain ⟨c, hrun, hinv⟩ := run_inv evs conf0 inv_conf0
  exact ⟨c, hrun, hinv.1⟩

theorem C9_witness :
    ∃ c, run conf0 [Event.startCmd, Event.photo "p" none none] = some c ∧
      (sessReq c.state → ∃ s, c.sess = some s) :=
  C9_session_never_missing [Event.startCmd, Event.photo "p" none none]

/-- Claim C10: in passport extraction, full_name is the space-joined
concatenation of the extracted given names and surnames with
surrounding whitespace trimmed; it degrades to "Unknown" exactly when
both name parts are absent or whitespace-only; and when exactly one
part is extracted, full_name is that part alone (trimmed) rather than
"Unknown". -/
theorem C10_full_name_join (sn gn pn : Option String) :
    dget (extract_passport_data (some ⟨sn, gn, pn⟩)) "full_name" "" =
      (if pyStrip (gn.getD "" ++ " " ++ sn.getD "") = "" then "Unknown"
       else pyStrip (gn.getD "" ++ " " ++ sn.getD "")) ∧
    (pyStrip (gn.getD "" ++ " " ++ sn.getD "") = "" ↔
      pyStrip (gn.getD "") = "" ∧ pyStrip (sn.getD "") = "") ∧
    (pyStrip (sn.getD "") = "" → pyStrip (gn.getD "") ≠ "" →
      dget (extract_passport_data (some ⟨sn, gn, pn⟩)) "full_name" "" = pyStrip (gn.getD "")) ∧
    (pyStrip (gn.getD "") = "" → pyStrip (sn.getD "") ≠ "" →
      dget (extract_passport_data (some ⟨sn, gn, pn⟩)) "full_name" "" = pyStrip (sn.getD "")) := by
  refine ⟨rfl, ?_, ?_, ?_⟩
  · rw [pyStrip_eq_empty_iff, pyStrip_eq_empty_iff, pyStrip_eq_empty_iff, data_join]
    simp [List.all_append, isPySpace_space]
  · intro h hne
    have hall : (sn.getD "").data.all isPySpace = true := (pyStrip_eq_empty_iff _).mp h
    have hj : pyStrip (gn.getD "" ++ " " ++ sn.getD "") = pyStrip (gn.getD "") :=
      pyStrip_join_right _ _ hall
    show (if pyStrip (gn.getD "" ++ " " ++ sn.getD "") = "" then "Unknown"
        else pyStrip (gn.getD "" ++ " " ++ sn.getD "")) = pyStrip (gn.getD "")
    rw [hj, if_neg hne]
  · intro h hne
    have hall : (gn.getD "").data.all isPySpace = true := (pyStrip_eq_empty_iff _).mp h
    have hj : pyStrip (gn.getD "" ++ " " ++ sn.getD "") = pyStrip (sn.getD "") :=
      pyStrip_join_left _ _ hall
    show (if pyStrip (gn.getD "" ++ " " ++ sn.getD "") = "" then "Unknown"
        else pyStrip (gn.getD "" ++ " " ++ sn.getD "")) = pyStrip (sn.getD "")
    rw [hj, if_neg hne]

theorem C10_witness :
    dget (extract_passport_data (some ⟨some "Петренко", none, none⟩)) "full_name" "" =
      pyStrip "Петренко" :=
  (C10_full_name_join (some "Петренко") none none).2.2.2 (by decide) (by decide)

end TgBot
